import Mathlib

set_option maxRecDepth 1000000

set_option maxHeartbeats 4000000

/-!
Verification of the single-file blockchain implementation (`main.py`).

The development shallowly embeds the program: pure Python functions become
Lean functions, the LevelDB key-value store becomes an association list
passed explicitly, unbounded `while` loops become fuel-indexed recursions
(`none` = the loop did not finish within the given fuel), and Python
exceptions become `Except` / explicit outcome constructors.

Modelling conventions, stated once:
* Machine-level hashing is embedded exactly: SHA-256 is implemented over
  byte lists (naturals below 256, arithmetic mod 2^32), and the hashed
  text reproduces CPython's `json.dumps(..., sort_keys=True)` output for
  the record structure the program builds (key order, ": " and ", "
  separators, string escaping, `null` for `None`).
* Numeric fields (`timestamp`, `amount`, `index`, `nonce`) are modelled
  as integers.  CPython would also allow floats (`time()`), but every
  store state and input considered by the claims carries integer-valued
  numbers, which serialize identically (`json.dumps(5)` = "5") and
  round-trip through the store unchanged.
* Store values are modelled structurally: a value is either raw text
  (`DBVal.raw`, used for the tip pointer) or a block record
  (`DBVal.blk`, standing for `json.dumps(asdict(block))`).  For the
  record format at hand, `json.loads` + `_deserialize_block` is a left
  inverse of serialization, so `get_block` returns the stored block.
-/

/-! ## SHA-256 over byte lists (words are naturals reduced mod 2^32) -/

def m32 (x : Nat) : Nat := x % 4294967296

def add32 (a b : Nat) : Nat := (a + b) % 4294967296

def rotr32 (n x : Nat) : Nat := m32 ((x >>> n) ||| (x <<< (32 - n)))

def bsig0 (x : Nat) : Nat := (rotr32 2 x) ^^^ (rotr32 13 x) ^^^ (rotr32 22 x)

def bsig1 (x : Nat) : Nat := (rotr32 6 x) ^^^ (rotr32 11 x) ^^^ (rotr32 25 x)

def ssig0 (x : Nat) : Nat := (rotr32 7 x) ^^^ (rotr32 18 x) ^^^ (x >>> 3)

def ssig1 (x : Nat) : Nat := (rotr32 17 x) ^^^ (rotr32 19 x) ^^^ (x >>> 10)

def ch32 (x y z : Nat) : Nat := (x &&& y) ^^^ ((x ^^^ 4294967295) &&& z)

def maj32 (x y z : Nat) : Nat := (x &&& y) ^^^ (x &&& z) ^^^ (y &&& z)

def sha256K : List Nat :=
  [1116352408, 1899447441, 3049323471, 3921009573, 961987163, 1508970993,
   2453635748, 2870763221, 3624381080, 310598401, 607225278, 1426881987,
   1925078388, 2162078206, 2614888103, 3248222580, 3835390401, 4022224774,
   264347078, 604807628, 770255983, 1249150122, 1555081692, 1996064986,
   2554220882, 2821834349, 2952996808, 3210313671, 3336571891, 3584528711,
   113926993, 338241895, 666307205, 773529912, 1294757372, 1396182291,
   1695183700, 1986661051, 2177026350, 2456956037, 2730485921, 2820302411,
   3259730800, 3345764771, 3516065817, 3600352804, 4094571909, 275423344,
   430227734, 506948616, 659060556, 883997877, 958139571, 1322822218,
   1537002063, 1747873779, 1955562222, 2024104815, 2227730452, 2361852424,
   2428436474, 2756734187, 3204031479, 3329325298]

def sha256H0 : List Nat :=
  [1779033703, 3144134277, 1013904242, 2773480762, 1359893119,
   2600822924, 528734635, 1541459225]

/-- Big-endian byte rendering of a natural, `len` bytes wide. -/
def toBEBytes (len n : Nat) : List Nat :=
  (List.range len).map (fun i => (n >>> (8 * (len - 1 - i))) % 256)

/-- SHA-256 padding: append 0x80, zero fill, and the 64-bit message bit length. -/
def sha256Pad (msg : List Nat) : List Nat :=
  let L := msg.length
  let k := (64 + 55 - L % 64) % 64
  msg ++ [128] ++ List.replicate k 0 ++ toBEBytes 8 (8 * L)

/-- Split a byte list into 64-byte chunks; structural recursion on a length
bound (each step drops at least one element, so `l.length` steps suffice). -/
def groups64Aux : Nat → List Nat → List (List Nat)
  | 0, _ => []
  | _, [] => []
  | n + 1, x :: xs => (x :: xs).take 64 :: groups64Aux n ((x :: xs).drop 64)

/-- Split a byte list into 64-byte chunks. -/
def groups64 (l : List Nat) : List (List Nat) := groups64Aux l.length l

/-- First 16 message-schedule words of a 64-byte chunk (big-endian). -/
def chunkWords (chunk : List Nat) : List Nat :=
  (List.range 16).map (fun i =>
    chunk.getD (4 * i) 0 * 16777216 + chunk.getD (4 * i + 1) 0 * 65536 +
    chunk.getD (4 * i + 2) 0 * 256 + chunk.getD (4 * i + 3) 0)

/-- Extend 16 schedule words to 64. -/
def sha256Schedule (w16 : List Nat) : List Nat :=
  (List.range 48).foldl
    (fun w _ =>
      w ++ [m32 (w.getD (w.length - 16) 0 + ssig0 (w.getD (w.length - 15) 0) +
                 w.getD (w.length - 7) 0 + ssig1 (w.getD (w.length - 2) 0))])
    w16

/-- One SHA-256 compression round over the 64 schedule words. -/
def sha256Compress (h w : List Nat) : List Nat :=
  let s := (List.range 64).foldl
    (fun s t =>
      match s with
      | (a, b, c, d, e, f, g, hh) =>
        let t1 := m32 (hh + bsig1 e + ch32 e f g + sha256K.getD t 0 + w.getD t 0)
        let t2 := m32 (bsig0 a + maj32 a b c)
        (m32 (t1 + t2), a, b, c, m32 (d + t1), e, f, g))
    (h.getD 0 0, h.getD 1 0, h.getD 2 0, h.getD 3 0,
     h.getD 4 0, h.getD 5 0, h.getD 6 0, h.getD 7 0)
  match s with
  | (a, b, c, d, e, f, g, hh) =>
    [add32 (h.getD 0 0) a, add32 (h.getD 1 0) b, add32 (h.getD 2 0) c, add32 (h.getD 3 0) d,
     add32 (h.getD 4 0) e, add32 (h.getD 5 0) f, add32 (h.getD 6 0) g, add32 (h.getD 7 0) hh]

/-- SHA-256 digest (32 bytes) of a byte list. -/
def sha256Bytes (msg : List Nat) : List Nat :=
  let final := (groups64 (sha256Pad msg)).foldl
    (fun h chunk => sha256Compress h (sha256Schedule (chunkWords chunk))) sha256H0
  final.flatMap (toBEBytes 4)

def hexChar (n : Nat) : Char :=
  if n < 10 then Char.ofNat (48 + n) else Char.ofNat (87 + n)

def byteHex (b : Nat) : List Char := [hexChar (b / 16), hexChar (b % 16)]

/-- Lowercase hex digest of a byte list, as `hashlib.sha256(...).hexdigest()`. -/
def hexDigest (msg : List Nat) : String :=
  String.mk ((sha256Bytes msg).flatMap byteHex)

/-! ## UTF-8 encoding (Python `str.encode()`) -/

def utf8Char (n : Nat) : List Nat :=
  if n < 128 then [n]
  else if n < 2048 then [192 + n / 64, 128 + n % 64]
  else if n < 65536 then [224 + n / 4096, 128 + (n / 64) % 64, 128 + n % 64]
  else [240 + n / 262144, 128 + (n / 4096) % 64, 128 + (n / 64) % 64, 128 + n % 64]

def utf8Encode (s : String) : List Nat := s.data.flatMap (fun c => utf8Char c.toNat)

/-! ## CPython json.dumps rendering (default separators, ensure_ascii) -/

def hex4 (n : Nat) : List Char :=
  [hexChar (n / 4096 % 16), hexChar (n / 256 % 16), hexChar (n / 16 % 16), hexChar (n % 16)]

/-- Escape one character as CPython json does: backslash, quote, the short
escapes, `\u00xx` for other controls, `\uxxxx` (with surrogate pairs) for
every non-ASCII character. -/
def jsonEscapeChar (c : Char) : List Char :=
  if c = '"' then ['\\', '"']
  else if c = '\\' then ['\\', '\\']
  else if c.toNat = 8 then ['\\', 'b']
  else if c.toNat = 9 then ['\\', 't']
  else if c.toNat = 10 then ['\\', 'n']
  else if c.toNat = 12 then ['\\', 'f']
  else if c.toNat = 13 then ['\\', 'r']
  else if c.toNat < 32 then '\\' :: 'u' :: hex4 c.toNat
  else if c.toNat < 127 then [c]
  else if c.toNat < 65536 then '\\' :: 'u' :: hex4 c.toNat
  else
    let v := c.toNat - 65536
    ('\\' :: 'u' :: hex4 (55296 + v / 1024)) ++ ('\\' :: 'u' :: hex4 (56320 + v % 1024))

/-- A JSON string literal as CPython renders it. -/
def jsonStr (s : String) : String :=
  "\"" ++ String.mk (s.data.flatMap jsonEscapeChar) ++ "\""


/-! ## Data model (`Transaction`, `Block` dataclasses) -/

/-- The `Transaction` dataclass: `sender_pubkey`, `recipient_address`,
`amount`, and an optional `signature` (default `None`). -/
structure Transaction where
  sender_pubkey : String
  recipient_address : String
  amount : Int
  signature : Option String := none
deriving DecidableEq, Repr

/-- The `Block` dataclass: `index`, `timestamp`, `transactions`,
`previous_hash`, `nonce` (default 0) and `hash` (default `None`). -/
structure Block where
  index : Int
  timestamp : Int
  transactions : List Transaction
  previous_hash : String
  nonce : Int := 0
  hash : Option String := none
deriving DecidableEq, Repr

/-- Serialization of `tx.__dict__` inside `json.dumps(..., sort_keys=True)`:
keys sorted to `amount`, `recipient_address`, `sender_pubkey`, `signature`;
`None` renders as `null`. -/
def txJson (t : Transaction) : String :=
  "\x7b\"amount\": " ++ toString t.amount ++
  ", \"recipient_address\": " ++ jsonStr t.recipient_address ++
  ", \"sender_pubkey\": " ++ jsonStr t.sender_pubkey ++
  ", \"signature\": " ++ (match t.signature with
                          | none => "null"
                          | some s => jsonStr s) ++ "\x7d"

/-- The exact text hashed by `Block.calculate_hash`: the block dict with
keys sorted to `index`, `nonce`, `previous_hash`, `timestamp`,
`transactions` (CPython's lexicographic order for these five keys). -/
def blockJson (b : Block) : String :=
  "\x7b\"index\": " ++ toString b.index ++
  ", \"nonce\": " ++ toString b.nonce ++
  ", \"previous_hash\": " ++ jsonStr b.previous_hash ++
  ", \"timestamp\": " ++ toString b.timestamp ++
  ", \"transactions\": [" ++ String.intercalate ", " (b.transactions.map txJson) ++
  "]\x7d"

/-- The method `Block.calculate_hash`: sha256 hex digest of the utf-8 encoded
`json.dumps` text above.  The `hash` field itself is not part of the input. -/
def calculate_hash (b : Block) : String := hexDigest (utf8Encode (blockJson b))

/-- The text signed by `Transaction._get_data_to_sign`: `json.dumps` without
`sort_keys`, so insertion order `sender`, `recipient`, `amount`. -/
def get_data_to_sign (t : Transaction) : List Nat :=
  utf8Encode ("\x7b\"sender\": " ++ jsonStr t.sender_pubkey ++
              ", \"recipient\": " ++ jsonStr t.recipient_address ++
              ", \"amount\": " ++ toString t.amount ++ "\x7d")

/-! ## Python exceptions that the embedded code can raise -/

inductive PyErr where
  /-- `AttributeError`, e.g. an attribute access on `None`. -/
  | attributeError
  /-- `TypeError`, e.g. `json.loads(None)`. -/
  | typeError
  /-- `binascii.Error` from `unhexlify` (odd length or non-hex digit). -/
  | binasciiError
  /-- An error raised inside the external `ecdsa` library. -/
  | ecdsaError
deriving DecidableEq, Repr

/-! ## The external signature library (python-ecdsa) -/

/-- Modelled from the spec: the Signature Codec (spec section 4.1) is the
external `ecdsa` package (`VerifyingKey.from_string`, `VerifyingKey.verify`
over SECP256k1), whose source is not part of this repository.  The
development is parametric over its behavior: `fromString` parses raw public
key bytes and may raise; `verify` takes key bytes, signature bytes and
message bytes and may raise (python-ecdsa raises `BadSignatureError` on a
mismatch rather than returning `False`).  Every theorem that touches
signatures holds for an arbitrary `CryptoLib`. -/
structure CryptoLib where
  fromString : List Nat → Except PyErr Unit
  verify : List Nat → List Nat → List Nat → Except PyErr Bool

def hexVal (c : Char) : Option Nat :=
  if 48 ≤ c.toNat ∧ c.toNat ≤ 57 then some (c.toNat - 48)
  else if 97 ≤ c.toNat ∧ c.toNat ≤ 102 then some (c.toNat - 87)
  else if 65 ≤ c.toNat ∧ c.toNat ≤ 70 then some (c.toNat - 55)
  else none

/-- `binascii.unhexlify` on a character list: raises on odd length or on a
non-hex character. -/
def unhexChars : List Char → Except PyErr (List Nat)
  | [] => .ok []
  | [_] => .error .binasciiError
  | c1 :: c2 :: rest =>
    match hexVal c1, hexVal c2 with
    | some a, some b => (unhexChars rest).map (fun l => (16 * a + b) :: l)
    | _, _ => .error .binasciiError

def unhexlify (s : String) : Except PyErr (List Nat) := unhexChars s.data

/-- The body of the `try:` block in `Transaction.verify`: decode the sender
public key, build the key object, decode the signature, and call the
library's `verify` on the signable data. -/
def Transaction.verifyBody (lib : CryptoLib) (t : Transaction) (sig : String) :
    Except PyErr Bool := do
  let pk ← unhexlify t.sender_pubkey
  let _ ← lib.fromString pk
  let sg ← unhexlify sig
  lib.verify pk sg (get_data_to_sign t)

/-- The method `Transaction.verify`: `False` when the signature is falsy
(`None` or the empty string); otherwise run the `try:` body, and collapse
any raised exception to `False` via the bare `except:`. -/
def Transaction.verify (lib : CryptoLib) (t : Transaction) : Bool :=
  match t.signature with
  | none => false
  | some sig =>
    if sig = "" then false
    else
      match t.verifyBody lib sig with
      | .ok b => b
      | .error _ => false

/-! ## Proof-of-work -/

/-- Character-list prefix test; `prefixChars p.data s.data` is Python's
`s.startswith(p)`.  (Core's `String.startsWith` is defined by well-founded
recursion and does not reduce definitionally, so the embedding spells the
same function out structurally.) -/
def prefixChars : List Char → List Char → Bool
  | [], _ => true
  | _ :: _, [] => false
  | c :: cs, d :: ds => if c = d then prefixChars cs ds else false

/-- Python's `s.startswith(p)`. -/
def pyStartsWith (s p : String) : Bool := prefixChars p.data s.data

/-- The required difficulty text, `"0" * difficulty`. -/
def zeros (d : Nat) : String := String.mk (List.replicate d '0')

/-- The difficulty predicate used by the program: the hex hash starts with
`difficulty` many '0' characters (`hash.startswith("0" * difficulty)`). -/
def difficultyOk (d : Nat) (h : String) : Bool := pyStartsWith h (zeros d)

/-- One fuel-indexed unfolding of the `while True:` search loop shared by
`proof_of_work` and `Blockchain.mine_block`: write `calculate_hash` into the
`hash` field; stop if it starts with the required zeros, else increment the
nonce and retry.  `none` means the loop did not finish within `fuel` steps. -/
def powLoop (p : String) : Block → Nat → Option Block
  | _, 0 => none
  | b, fuel + 1 =>
    if pyStartsWith (calculate_hash b) p then some { b with hash := some (calculate_hash b) }
    else powLoop p { b with nonce := b.nonce + 1, hash := some (calculate_hash b) } fuel

/-- The free function `proof_of_work(block, difficulty=4)`: reset the nonce
to 0, then search. -/
def proof_of_work (b : Block) (difficulty : Nat) (fuel : Nat) : Option Block :=
  powLoop (zeros difficulty) { b with nonce := 0 } fuel

/-! ## The LevelDB store -/

/-- A stored value: raw text (the tip pointer) or a block record, standing
for `json.dumps(asdict(block))`. -/
inductive DBVal where
  | raw : String → DBVal
  | blk : Block → DBVal
deriving DecidableEq, Repr

/-- The LevelDB namespace, as an association list; `db.put` prepends, and
`db.get` takes the first (most recent) entry, which models overwriting. -/
def Store := List (String × DBVal)

def dbGet : Store → String → Option DBVal
  | [], _ => none
  | (k, v) :: rest, key => if key = k then some v else dbGet rest key

def dbPut (db : Store) (k : String) (v : DBVal) : Store := (k, v) :: db

/-! ## The Blockchain class -/

/-- The mutable state of a `Blockchain` object: the LevelDB handle, the
configured difficulty (4), and the in-memory pending transaction list. -/
structure Blockchain where
  db : Store
  difficulty : Nat
  pending_transactions : List Transaction

/-- `Blockchain._save_block`: put the serialized block under its own hash,
then put the tip pointer.  Faithful detail kept from line 111 of the source:
the tip is written under the key "last_path", while every read of the tip
(`__init__`, `get_last_block`, `validate_chain`) uses the key "last_hash".
A block whose `hash` field is `None` raises (`block.hash.encode()`). -/
def save_block (db : Store) (b : Block) : Except PyErr Store :=
  match b.hash with
  | none => .error .attributeError
  | some h => .ok (dbPut (dbPut db h (.blk b)) "last_path" (.raw h))

/-- `Blockchain.get_block`: `db.get` on the hash and deserialize; `None`
(absent) when the key is unset.  A `DBVal.raw` value at a block key would
make `json.loads` raise in CPython; no store considered in this development
holds raw text under a block key, and the model returns absent there. -/
def get_block (db : Store) (h : String) : Option Block :=
  match dbGet db h with
  | some (.blk b) => some b
  | _ => none

/-- `Blockchain.get_last_block`: read the tip pointer at key "last_hash"
(`None` and empty bytes are falsy and yield `None`), then
`json.loads(self.db.get(last_hash))` — which raises `TypeError` when the
pointed-to record is missing, since `db.get` returned `None`. -/
def get_last_block (db : Store) : Except PyErr (Option Block) :=
  match dbGet db "last_hash" with
  | none => .ok none
  | some (.raw h) =>
    if h = "" then .ok none
    else
      match dbGet db h with
      | some (.blk b) => .ok (some b)
      | _ => .error .typeError
  | some (.blk _) => .error .typeError

/-- `Blockchain._create_genesis_block`, as written: build the sentinel
transaction and the index-0 block, set `hash` by a single `calculate_hash`
call (no proof-of-work sealing), and `_save_block` it.  `now` stands for
`time()`. -/
def create_genesis_block (now : Int) (db : Store) : Except PyErr Store :=
  let genesis_tx : Transaction :=
    { sender_pubkey := "0", recipient_address := "0", amount := 0 }
  let genesis_block : Block :=
    { index := 0, timestamp := now, transactions := [genesis_tx], previous_hash := "0" }
  save_block db { genesis_block with hash := some (calculate_hash genesis_block) }

/-- `Blockchain.__init__`: open the store, set difficulty 4 and an empty
pending list.  Lines 96-97 of the source read
`if not self.db.get(b"last_hash"): self._create_genesis_block` — the method
is referenced without call parentheses, so the conditional evaluates the
bound method object and discards it: no genesis block is ever created and
the store is left exactly as opened. -/
def Blockchain.init (db : Store) : Blockchain :=
  { db := db, difficulty := 4, pending_transactions := [] }

/-- The `ValueError("Invalid transaction signature")` raised by
`add_transaction`; the spec's name for it is `InvalidSignatureError`. -/
inductive SubmitErr where
  | invalidSignature
deriving DecidableEq, Repr

/-- `Blockchain.add_transaction`: raise unless `transaction.verify()`, else
append to the end of `pending_transactions`. -/
def Blockchain.add_transaction (lib : CryptoLib) (bc : Blockchain)
    (t : Transaction) : Except SubmitErr Blockchain :=
  if Transaction.verify lib t then
    .ok { bc with pending_transactions := bc.pending_transactions ++ [t] }
  else .error .invalidSignature

/-- The possible results of one `mine_block` call. -/
inductive MineOutcome where
  /-- The pending list was empty: print and `return None`. -/
  | nothingToMine
  /-- A sealed block was persisted and returned. -/
  | mined : Block → MineOutcome
  /-- `get_last_block()` returned `None`, so `last_block.index` raised
  `AttributeError`. -/
  | crashNoTip
  /-- An exception escaped from the store layer. -/
  | crashStore : PyErr → MineOutcome
  /-- The stored tip record carries `hash: null`, outside the persisted
  record format of spec section 6; not reachable from any store considered
  here. -/
  | illTypedTip
  /-- The proof-of-work loop did not finish within the given fuel. -/
  | fuelOut
deriving Repr

/-- `Blockchain.mine_block`: return `None` on an empty pending list;
otherwise read the tip (crashing on an absent one), assemble the candidate
block with `index = tip.index + 1` and `previous_hash = tip.hash`, run the
inline proof-of-work loop (which, unlike `proof_of_work`, does not reset the
nonce: the dataclass default 0 is used), persist, and clear the pending
list.  `now` stands for `time()`. -/
def Blockchain.mine_block (now : Int) (fuel : Nat) (bc : Blockchain) :
    MineOutcome × Blockchain :=
  if bc.pending_transactions = [] then (.nothingToMine, bc)
  else
    match get_last_block bc.db with
    | .error e => (.crashStore e, bc)
    | .ok none => (.crashNoTip, bc)
    | .ok (some last) =>
      match last.hash with
      | none => (.illTypedTip, bc)
      | some lh =>
        let candidate : Block :=
          { index := last.index + 1, timestamp := now,
            transactions := bc.pending_transactions, previous_hash := lh }
        match powLoop (zeros bc.difficulty) candidate fuel with
        | none => (.fuelOut, bc)
        | some sealed =>
          match save_block bc.db sealed with
          | .error e => (.crashStore e, bc)
          | .ok db2 => (.mined sealed, { bc with db := db2, pending_transactions := [] })

/-- The `while current_hash:` walk of `validate_chain`, fuel-indexed per
iteration.  `none` models the empty-bytes tip (falsy, like `None`); at each
step the block is fetched (`return False` if absent), its stored hash is
compared with `calculate_hash`, and for a positive index the previous block
must exist with index exactly one less; then the walk follows
`previous_hash`.  The walk exits with `True` only when the followed hash is
falsy, i.e. the empty string; the genesis sentinel "0" is truthy bytes, so
it is followed like any other key. -/
def validateWalk (db : Store) : Option String → Nat → Option Bool
  | none, _ => some true
  | some h, 0 => if h = "" then some true else none
  | some h, fuel + 1 =>
    if h = "" then some true
    else
      match get_block db h with
      | none => some false
      | some b =>
        if b.hash = some (calculate_hash b) then
          if 0 < b.index then
            match get_block db b.previous_hash with
            | some pb =>
              if pb.index = b.index - 1 then validateWalk db (some b.previous_hash) fuel
              else some false
            | none => some false
          else validateWalk db (some b.previous_hash) fuel
        else some false

/-- `Blockchain.validate_chain`: start from `db.get(b"last_hash")` and walk.
If the tip key holds a block record, `current_hash.decode()` is its JSON
text, which is then looked up like any hash string. -/
def validate_chain (db : Store) (fuel : Nat) : Option Bool :=
  validateWalk db
    (match dbGet db "last_hash" with
     | none => none
     | some (.raw h) => some h
     | some (.blk b) => some (blockJson b))
    fuel

/-! ## Concrete objects used to settle the claims

The hash literals below are SHA-256 digests of the corresponding
`blockJson` texts; each is tied to `calculate_hash` by a `rfl` fact in the
theorems that use it. -/

/-- A signature-library instance that accepts everything; theorems about
signature handling are universally quantified over the library, and this
instance discharges their hypotheses on concrete inputs. -/
def libAccept : CryptoLib :=
  { fromString := fun _ => .ok (), verify := fun _ _ _ => .ok true }

/-- The genesis sentinel transaction. -/
def txSentinel : Transaction :=
  { sender_pubkey := "0", recipient_address := "0", amount := 0 }

/-- A signed demo transaction (hex-decodable key and signature). -/
def txDemo : Transaction :=
  { sender_pubkey := "aa", recipient_address := "bb", amount := 5, signature := some "cc" }

/-- An unsigned transaction: the `signature` field is absent. -/
def txUnsigned : Transaction :=
  { sender_pubkey := "aa", recipient_address := "bb", amount := 5 }

/-- A transaction whose sender key is not hex-decodable, so
`binascii.unhexlify` raises inside `Transaction.verify`. -/
def txBadHex : Transaction :=
  { sender_pubkey := "zz", recipient_address := "bb", amount := 5, signature := some "cc" }

/-- Digest of `blkA` (checked by `rfl` where used). -/
def hashA : String := "f760e2a86770643fd3e4ce22fb4ad9b78e95d7f150d4a8a08b763a1944534dc7"

/-- An index-0 block whose walk terminates cleanly (`previous_hash` is the
empty string, the only falsy value ending the `while current_hash:` loop). -/
def blkA : Block :=
  { index := 0, timestamp := 0, transactions := [txSentinel], previous_hash := "",
    hash := some hashA }

/-- Digest of `blkB` (checked by `rfl` where used). -/
def hashB : String := "ce0c63174633e06125f609a083e583c5c6c0787f06c43c7e16a429ead1d8c847"

/-- An index-1 block linking back to `blkA`. -/
def blkB : Block :=
  { index := 1, timestamp := 1, transactions := [txDemo], previous_hash := hashA,
    hash := some hashB }

/-- A store holding the consistent two-block chain `blkA` ← `blkB`. -/
def storeTwo : Store :=
  [("last_hash", .raw hashB), (hashB, .blk blkB), (hashA, .blk blkA)]

/-- `storeTwo` with the tip block's `transactions` field overwritten in
place (stored `hash` field untouched). -/
def storeTamperTip (txs : List Transaction) : Store :=
  [("last_hash", .raw hashB), (hashB, .blk { blkB with transactions := txs }),
   (hashA, .blk blkA)]

/-- `storeTwo` with the index-0 block's `transactions` field overwritten in
place (stored `hash` field untouched). -/
def storeTamperGen (txs : List Transaction) : Store :=
  [("last_hash", .raw hashB), (hashB, .blk blkB),
   (hashA, .blk { blkA with transactions := txs })]

/-- Digest of `blkSolo` (checked by `rfl` where used); its first four hex
characters are "916a", so it fails the difficulty-4 predicate. -/
def hashSolo : String := "916a4078514d10e18cd5e60d3bd9db9bbe35c477dc80352aa0f844163e06d05b"

/-- A correctly hashed index-0 block whose hash has no leading zeros. -/
def blkSolo : Block :=
  { index := 0, timestamp := 0, transactions := [], previous_hash := "",
    hash := some hashSolo }

/-- A store whose one-block chain consists of `blkSolo`. -/
def storeSolo : Store := [("last_hash", .raw hashSolo), (hashSolo, .blk blkSolo)]

/-- A block handed to `proof_of_work` in the witness; its nonce starts at
99 to exhibit the reset to 0. -/
def blkPow : Block :=
  { index := 1, timestamp := 9, transactions := [txDemo], previous_hash := "ff", nonce := 99 }

/-- The digest found by `proof_of_work blkPow 1` at nonce 2. -/
def hashPow : String := "0dcf9ac1c4e6ead117096bafad6d5962c8478ad4309bcad6ff59fc66c32f7e0e"

/-- The sealed block returned by `proof_of_work blkPow 1` (fuel 4). -/
def blkPowSealed : Block :=
  { index := 1, timestamp := 9, transactions := [txDemo], previous_hash := "ff",
    nonce := 2, hash := some hashPow }

/-- The block used for the claim-C1 store: any block with a set hash. -/
def blkC1 : Block :=
  { index := 0, timestamp := 0, transactions := [], previous_hash := "0", hash := some "ab" }

/-- The store produced by `save_block` of `blkC1` on an empty store. -/
def storeC1 : Store := [("last_path", .raw "ab"), ("ab", .blk blkC1)]

/-- The controller state after submitting `txDemo` to a fresh chain. -/
def bcPending : Blockchain :=
  { db := [], difficulty := 4, pending_transactions := [txDemo] }

/-! ## Helper lemmas -/

/-- Sanity vector: the embedded SHA-256 matches the FIPS 180 test value. -/
theorem sha256_abc_vector :
    hexDigest (utf8Encode "abc") =
      "ba7816bf8f01cfea414140de5dae2223b00361a396177a9cb410ff61f20015ad" := rfl

/-- The hashed text does not read the `hash` field, so rewriting it leaves
`calculate_hash` unchanged. -/
theorem calculate_hash_mk_hash (i t : Int) (txs : List Transaction) (ph : String)
    (n : Int) (h1 h2 : Option String) :
    calculate_hash (Block.mk i t txs ph n h1) = calculate_hash (Block.mk i t txs ph n h2) := rfl

/-- A transaction with an absent signature never verifies. -/
theorem Transaction.verify_of_none (lib : CryptoLib) (t : Transaction)
    (h : t.signature = none) : Transaction.verify lib t = false := by
  unfold Transaction.verify
  rw [h]

/-- The walk exits with `True` at the empty (falsy) hash, whatever the fuel. -/
theorem validateWalk_empty (db : Store) (fuel : Nat) :
    validateWalk db (some "") fuel = some true := by
  cases fuel <;> simp [validateWalk]

/-- A walk step at a block whose stored hash differs from its recomputed
hash returns `False`. -/
theorem validateWalk_bad_hash (db : Store) (h : String) (b : Block) (fuel : Nat)
    (h1 : ¬ h = "") (h2 : get_block db h = some b)
    (h3 : ¬ b.hash = some (calculate_hash b)) :
    validateWalk db (some h) (fuel + 1) = some false := by
  simp [validateWalk, h1, h2, h3]

/-- A walk step at a positive-index block whose checks all pass moves to its
`previous_hash`. -/
theorem validateWalk_good_step (db : Store) (h : String) (b pb : Block) (fuel : Nat)
    (h1 : ¬ h = "") (h2 : get_block db h = some b)
    (h3 : b.hash = some (calculate_hash b)) (h4 : 0 < b.index)
    (h5 : get_block db b.previous_hash = some pb) (h6 : pb.index = b.index - 1) :
    validateWalk db (some h) (fuel + 1) = validateWalk db (some b.previous_hash) fuel := by
  simp [validateWalk, h1, h2, h3, h4, h5, h6]

/-! ## Claim C1 -/

/-- Claim C1 (code bug exhibited): `put_block` (`Blockchain._save_block`)
does not leave the tip pointer at the saved block's hash.  Saving `blkC1`
into an empty store writes the block record and writes the hash under the
key "last_path" (source line 111), but the tip key "last_hash" that
`get_tip()` (`Blockchain.get_last_block`) reads stays unset, so the
subsequent tip read returns absent rather than a block equal to `blkC1`. -/
theorem c1_save_block_does_not_move_tip :
    save_block [] blkC1 = .ok storeC1 ∧
    dbGet storeC1 "last_path" = some (.raw "ab") ∧
    dbGet storeC1 "last_hash" = none ∧
    get_last_block storeC1 = .ok none :=
  ⟨rfl, rfl, rfl, rfl⟩

/-! ## Claim C2 -/

/-- Claim C2 (code bug exhibited): on a fresh store, `__init__` creates no
genesis block (line 97 references `_create_genesis_block` without calling
it), so after submitting a verified transaction the first `mine()` call
finds no tip: `get_last_block()` yields `None` and `last_block.index`
raises `AttributeError`.  Two successful mines, a `true` validation and a
tip of index 2 are unreachable; the state is left with the transaction
still pending and the store still empty. -/
theorem c2_first_mine_crashes_on_fresh_store :
    Blockchain.add_transaction libAccept (Blockchain.init []) txDemo = .ok bcPending ∧
    Blockchain.mine_block 0 100 bcPending = (.crashNoTip, bcPending) :=
  ⟨rfl, rfl⟩

/-! ## Claim C3 -/

/-- Claim C3 (code bug exhibited): store initialization persists nothing.
`Blockchain.__init__` tests the tip key but only references
`_create_genesis_block` (no call parentheses), so for every opened store —
in particular one with no tip pointer — the store contents are returned
untouched: no genesis block is constructed, sealed, or put. -/
theorem c3_init_persists_no_genesis (db : Store) :
    (Blockchain.init db).db = db ∧
    (Blockchain.init db).difficulty = 4 ∧
    (Blockchain.init db).pending_transactions = [] :=
  ⟨rfl, rfl, rfl⟩

/-! ## Claim C9 -/

/-- Claim C9 (confirmed): with an empty pending queue, `mine_block` returns
the nothing-to-mine outcome (Python `None`, not an error) and the whole
state — store contents, tip pointer, pending queue — is returned unchanged. -/
theorem c9_empty_queue_mine_is_noop (now : Int) (fuel : Nat) (bc : Blockchain)
    (h : bc.pending_transactions = []) :
    Blockchain.mine_block now fuel bc = (.nothingToMine, bc) := by
  simp [Blockchain.mine_block, h]

/-- Witness for C9 at a concrete state. -/
theorem c9_empty_queue_mine_is_noop_witness :
    Blockchain.mine_block 0 3 (Blockchain.init []) = (.nothingToMine, Blockchain.init []) :=
  c9_empty_queue_mine_is_noop 0 3 (Blockchain.init []) rfl

/-! ## Claim C10 -/

/-- Claim C10 (confirmed): when the tip key "last_hash" is unset,
`validate_chain` returns `true` immediately — the `while current_hash:`
loop body never runs, whatever else the store holds. -/
theorem c10_no_tip_validates_true (db : Store) (fuel : Nat)
    (h : dbGet db "last_hash" = none) :
    validate_chain db fuel = some true := by
  rw [validate_chain, h]
  cases fuel <;> rfl

/-- Witness for C10 on the empty store. -/
theorem c10_no_tip_validates_true_witness : validate_chain [] 0 = some true :=
  c10_no_tip_validates_true [] 0 rfl

/-! ## Claim C7 -/

/-- Claim C7 (confirmed): for every signature-library behavior and every
transaction, `Transaction.verify` returns `false` when the signature field
is absent; returns `false` whenever the `try:` body raises (bad hex decode,
malformed key, cryptographic mismatch — any `PyErr`); and always produces a
boolean (the bare `except:` means no exception escapes). -/
theorem c7_verify_never_raises (lib : CryptoLib) (t : Transaction) :
    (t.signature = none → Transaction.verify lib t = false) ∧
    (∀ s e, t.signature = some s → Transaction.verifyBody lib t s = .error e →
      Transaction.verify lib t = false) ∧
    (Transaction.verify lib t = false ∨ Transaction.verify lib t = true) := by
  refine ⟨fun h => Transaction.verify_of_none lib t h, ?_, ?_⟩
  · intro s e hs he
    unfold Transaction.verify
    rw [hs]
    by_cases hempty : s = ""
    · simp [hempty]
    · simp [hempty, he]
  · cases Transaction.verify lib t
    · exact Or.inl rfl
    · exact Or.inr rfl

/-- Witness for C7: an unsigned transaction verifies false, and a raised
decode error (non-hex sender key) also collapses to false. -/
theorem c7_verify_never_raises_witness :
    Transaction.verify libAccept txUnsigned = false ∧
    Transaction.verifyBody libAccept txBadHex "cc" = .error .binasciiError ∧
    Transaction.verify libAccept txBadHex = false :=
  ⟨(c7_verify_never_raises libAccept txUnsigned).1 rfl,
   rfl,
   (c7_verify_never_raises libAccept txBadHex).2.1 "cc" .binasciiError rfl rfl⟩

/-! ## Claim C8 -/

/-- Claim C8 (confirmed): `add_transaction` raises the invalid-signature
error exactly when `verify()` is false — in particular for every unsigned
transaction — and otherwise appends the transaction at the end of the
pending queue, so inclusion order follows submission order. -/
theorem c8_submit_rejects_iff_unverified (lib : CryptoLib) (bc : Blockchain)
    (t : Transaction) :
    (Transaction.verify lib t = false ↔
      Blockchain.add_transaction lib bc t = .error .invalidSignature) ∧
    (Transaction.verify lib t = true →
      Blockchain.add_transaction lib bc t =
        .ok { bc with pending_transactions := bc.pending_transactions ++ [t] }) ∧
    (t.signature = none →
      Blockchain.add_transaction lib bc t = .error .invalidSignature) := by
  refine ⟨⟨fun h => ?_, fun h => ?_⟩, fun h => ?_, fun h => ?_⟩
  · simp [Blockchain.add_transaction, h]
  · cases hv : Transaction.verify lib t
    · rfl
    · simp [Blockchain.add_transaction, hv] at h
  · simp [Blockchain.add_transaction, h]
  · simp [Blockchain.add_transaction, Transaction.verify_of_none lib t h]

/-- Witness for C8: the unsigned transaction is rejected; the signed demo
transaction is appended at the end of the empty queue. -/
theorem c8_submit_rejects_iff_unverified_witness :
    Blockchain.add_transaction libAccept (Blockchain.init []) txUnsigned =
      .error .invalidSignature ∧
    Blockchain.add_transaction libAccept (Blockchain.init []) txDemo =
      .ok { Blockchain.init [] with
            pending_transactions := (Blockchain.init []).pending_transactions ++ [txDemo] } :=
  ⟨(c8_submit_rejects_iff_unverified libAccept (Blockchain.init []) txUnsigned).2.2 rfl,
   (c8_submit_rejects_iff_unverified libAccept (Blockchain.init []) txDemo).2.1 rfl⟩

/-! ## Claim C4 -/

/-- Claim C4 counterexample: in `storeSolo` the walk from the tip consists
of `blkSolo`, whose stored hash `hashSolo` equals its recomputed
`calculate_hash` but fails the difficulty-4 predicate (it starts "916a"),
yet `validate_chain` returns `true`: the validation loop never consults the
difficulty. -/
theorem c4_counterexample :
    difficultyOk 4 hashSolo = false ∧
    dbGet storeSolo "last_hash" = some (.raw hashSolo) ∧
    get_block storeSolo hashSolo = some blkSolo ∧
    blkSolo.hash = some (calculate_hash blkSolo) ∧
    validate_chain storeSolo 2 = some true :=
  ⟨rfl, rfl, rfl, rfl, rfl⟩

/-- Claim C4 amended: `validate_chain` does not check the difficulty
predicate; a walk whose blocks pass the stored-equals-recomputed hash check
and the index back-link check validates `true` even though a walked block's
stored hash has fewer than `difficulty` leading '0' characters — here for
every sufficient fuel bound, i.e. the Python loop genuinely returns `True`. -/
theorem c4_validate_ignores_difficulty (f : Nat) :
    difficultyOk 4 hashSolo = false ∧ validate_chain storeSolo (f + 1) = some true := by
  refine ⟨rfl, ?_⟩
  have step : validate_chain storeSolo (f + 1) = validateWalk storeSolo (some "") f := rfl
  rw [step, validateWalk_empty]

/-! ## Claim C5 -/

/-- Claim C5 (confirmed): `storeTwo` is a two-block chain on which
`validate_chain` returns `true`; overwriting either stored block's
`transactions` field in place — with any list whose recomputed hash differs
from the stored one, i.e. barring a SHA-256 collision — without resealing
makes `validate_chain` return `false`, at every sufficient fuel bound. -/
theorem c5_tamper_detected (txs : List Transaction) (f : Nat) :
    (¬ calculate_hash { blkB with transactions := txs } = hashB →
      validate_chain (storeTamperTip txs) (f + 1) = some false) ∧
    (¬ calculate_hash { blkA with transactions := txs } = hashA →
      validate_chain (storeTamperGen txs) (f + 2) = some false) ∧
    validate_chain storeTwo 3 = some true := by
  refine ⟨fun hne => ?_, fun hne => ?_, rfl⟩
  · have step : validate_chain (storeTamperTip txs) (f + 1) =
        validateWalk (storeTamperTip txs) (some hashB) (f + 1) := rfl
    rw [step]
    refine validateWalk_bad_hash _ _ { blkB with transactions := txs } f (by decide) rfl ?_
    exact fun hcontra => hne (Option.some.inj hcontra).symm
  · have step : validate_chain (storeTamperGen txs) (f + 2) =
        validateWalk (storeTamperGen txs) (some hashB) (f + 2) := rfl
    rw [step]
    rw [validateWalk_good_step (storeTamperGen txs) hashB blkB
          { blkA with transactions := txs } (f + 1) (by decide) rfl rfl (by decide) rfl
          rfl]
    refine validateWalk_bad_hash _ _ { blkA with transactions := txs } f (by decide) rfl ?_
    exact fun hcontra => hne (Option.some.inj hcontra).symm

/-- Witness for C5: erasing the transactions of either block of the valid
two-block chain flips validation to `false`. -/
theorem c5_tamper_detected_witness :
    validate_chain (storeTamperTip []) 3 = some false ∧
    validate_chain (storeTamperGen []) 4 = some false :=
  ⟨(c5_tamper_detected [] 2).1 (by decide),
   ((c5_tamper_detected [] 2).2).1 (by decide)⟩

/-! ## Claim C6 -/

/-- Soundness of one run of the nonce-search loop: a returned block is the
input block with the nonce advanced by some `k` steps and the hash field
freshly written from `calculate_hash`; the found hash satisfies the target
text, and every nonce passed over on the way failed it. -/
theorem powLoop_sound (p : String) :
    ∀ (fuel : Nat) (b bR : Block), powLoop p b fuel = some bR →
    ∃ k : Nat,
      bR = { b with nonce := b.nonce + (k : Int),
                    hash := some (calculate_hash { b with nonce := b.nonce + (k : Int) }) } ∧
      pyStartsWith (calculate_hash bR) p = true ∧
      ∀ j : Nat, j < k →
        pyStartsWith (calculate_hash { b with nonce := b.nonce + (j : Int) }) p = false := by
  intro fuel
  induction fuel with
  | zero =>
    intro b bR h
    simp [powLoop] at h
  | succ f ih =>
    intro b bR h
    obtain ⟨bi, bt, btx, bph, bn, bh⟩ := b
    rw [powLoop] at h
    by_cases hc : pyStartsWith (calculate_hash (Block.mk bi bt btx bph bn bh)) p = true
    · rw [if_pos hc] at h
      obtain rfl : _ = bR := Option.some.inj h
      refine ⟨0, ?_, ?_, ?_⟩
      · simp
      · rw [calculate_hash_mk_hash bi bt btx bph bn _ bh]
        exact hc
      · intro j hj
        omega
    · rw [if_neg hc] at h
      obtain ⟨k, hbR, hgood, hmin⟩ := ih _ bR h
      refine ⟨k + 1, ?_, hgood, ?_⟩
      · rw [hbR]
        have harith : bn + 1 + (k : Int) = bn + ((k : Nat) + 1 : Nat) := by push_cast; ring
        simp only [harith]
        rw [calculate_hash_mk_hash bi bt btx bph _ _ bh]
      · intro j hj
        match j with
        | 0 =>
          simp only [Nat.cast_zero, add_zero]
          exact Bool.not_eq_true _ ▸ (Bool.eq_false_iff.mpr hc)
        | jj + 1 =>
          have hlt : jj < k := by omega
          have hstep := hmin jj hlt
          have harith : bn + 1 + (jj : Int) = bn + ((jj : Nat) + 1 : Nat) := by push_cast; ring
          rw [harith] at hstep
          rw [calculate_hash_mk_hash bi bt btx bph _ _ bh] at hstep
          exact hstep

/-- Claim C6 (confirmed): whenever `proof_of_work(block, d)` returns within
its fuel, the returned block's hash field holds exactly
`calculate_hash` of the returned block and satisfies the difficulty-`d`
predicate (at least `d` leading '0' hex characters); moreover the search
started at nonce 0 and stepped by 1: the returned nonce is non-negative and
every smaller non-negative nonce fails the predicate. -/
theorem c6_proof_of_work_sound (b : Block) (d fuel : Nat) (bR : Block)
    (h : proof_of_work b d fuel = some bR) :
    difficultyOk d (calculate_hash bR) = true ∧
    bR.hash = some (calculate_hash bR) ∧
    0 ≤ bR.nonce ∧
    ∀ m : Int, 0 ≤ m → m < bR.nonce →
      difficultyOk d (calculate_hash { b with nonce := m }) = false := by
  obtain ⟨bi, bt, btx, bph, bn, bh⟩ := b
  unfold proof_of_work at h
  replace h : powLoop (zeros d) (Block.mk bi bt btx bph 0 bh) fuel = some bR := h
  obtain ⟨k, hbR, hgood, hmin⟩ :=
    powLoop_sound (zeros d) fuel (Block.mk bi bt btx bph 0 bh) bR h
  replace hbR : bR = Block.mk bi bt btx bph ((0 : Int) + (k : Int))
      (some (calculate_hash (Block.mk bi bt btx bph ((0 : Int) + (k : Int)) bh))) := hbR
  refine ⟨hgood, ?_, ?_, ?_⟩
  · rw [hbR]
    exact congrArg some (calculate_hash_mk_hash bi bt btx bph _ bh _)
  · rw [hbR]
    show (0 : Int) ≤ 0 + (k : Int)
    omega
  · intro m hm0 hmk
    rw [hbR] at hmk
    replace hmk : m < (0 : Int) + (k : Int) := hmk
    have hj : m.toNat < k := by omega
    have hstep := hmin m.toNat hj
    replace hstep : pyStartsWith
        (calculate_hash (Block.mk bi bt btx bph ((0 : Int) + ((m.toNat : Nat) : Int)) bh))
        (zeros d) = false := hstep
    have hmm : (0 : Int) + ((m.toNat : Nat) : Int) = m := by omega
    rw [hmm] at hstep
    exact hstep

/-- Witness for C6: sealing `blkPow` at difficulty 1 returns
`blkPowSealed`, whose hash starts with '0' and re-hashes to itself. -/
theorem c6_proof_of_work_sound_witness :
    difficultyOk 1 (calculate_hash blkPowSealed) = true ∧
    blkPowSealed.hash = some (calculate_hash blkPowSealed) := by
  have h := c6_proof_of_work_sound blkPow 1 4 blkPowSealed rfl
  exact ⟨h.1, h.2.1⟩
